import Mathlib

/-!
Shallow embedding of the bn-screenshot plugin (src/__init__.py).

The plugin is sequential glue over the Qt toolkit and the Binary Ninja UI.
We model the host environment (widget lookup results, user dialog answers,
whether the disk save succeeds) as an explicit `Env` record, and every
operation as a pure function from `Env` to a pair of an event trace
(the observable effects, in order) and a Python-level result
(normal return or an uncaught exception).
-/

/-- Qt rectangle, stored as its two corner coordinates, exactly as `QRect`
stores `x1, y1, x2, y2`. -/
structure QRect where
  x1 : Int
  y1 : Int
  x2 : Int
  y2 : Int
  deriving DecidableEq

/-- Qt size: a width and a height. -/
structure QSize where
  width : Int
  height : Int
  deriving DecidableEq

/-- `QRect.width()`: `x2 - x1 + 1`. -/
def QRect.width (r : QRect) : Int := r.x2 - r.x1 + 1

/-- `QRect.height()`: `y2 - y1 + 1`. -/
def QRect.height (r : QRect) : Int := r.y2 - r.y1 + 1

/-- `QRect.setWidth(w)`: moves `x2` so the width becomes `w`. -/
def QRect.setWidth (r : QRect) (w : Int) : QRect := { r with x2 := r.x1 + w - 1 }

/-- `QRect.setHeight(h)`: moves `y2` so the height becomes `h`. -/
def QRect.setHeight (r : QRect) (h : Int) : QRect := { r with y2 := r.y1 + h - 1 }

/-- `QRect.size()`: the rectangle as a `QSize`. -/
def QRect.size (r : QRect) : QSize := ⟨r.width, r.height⟩

/-- `scaled_size` from src/__init__.py lines 30-44: copies the rectangle,
sets its width to `int(r.width() * scale)` and its height to
`int(r.height() * scale)` (exact, since both operands are Python ints),
and returns the resulting size. -/
def scaled_size (r : QRect) (scale : Int) : QSize :=
  let s := r
  let s := s.setWidth (r.width * scale)
  let s := s.setHeight (r.height * scale)
  s.size

/-- A widget, with the only attribute the plugin reads: `w.rect()`. -/
structure QWidget where
  rect : QRect
  deriving DecidableEq

/-- A view frame; `getCurrentWidget()` may return `None`. -/
structure ViewFrame where
  currentWidget : Option QWidget
  deriving DecidableEq

/-- Observable effects, in program order. -/
inductive Event where
  /-- `QPixmap(size)` allocation. -/
  | pixmapCreate (size : QSize)
  /-- `img.setDevicePixelRatio(scale)`. -/
  | setDevicePixelRatio (scale : Int)
  /-- `w.render(img, QPoint(), QRegion(r))`. -/
  | render (region : QRect)
  /-- `get_save_filename_input(prompt, ext, default_filename)`. -/
  | saveFileDialog (prompt ext defaultName : String)
  /-- `img.save(path)`: the single attempt to write the file to disk. -/
  | saveAttempt (path : String)
  /-- `print(msg)`: a console message, not a dialog. -/
  | printed (msg : String)
  /-- `show_message_box(title, text, OKButtonSet, ErrorIcon)`: a modal
  error dialog. -/
  | errorDialog (title text : String)
  /-- `get_int_input(prompt, title)`. -/
  | intPrompt (prompt title : String)
  deriving DecidableEq

/-- Python-level outcome of an operation. -/
inductive PyResult where
  /-- Normal return. -/
  | ok
  /-- Uncaught `UnicodeDecodeError` from `bytes.decode("ascii")`. -/
  | unicodeDecodeError
  /-- Uncaught `AttributeError` from calling a method on `None`. -/
  | attributeError
  deriving DecidableEq

/-- The host environment: everything outside the plugin that its control
flow depends on. -/
structure Env where
  /-- `int(time.time())` at invocation. -/
  now : Int
  /-- `QApplication.activeWindow()`; `none` models Python `None`. -/
  activeWindow : Option QWidget
  /-- `DockHandler.getActiveDockHandler().getViewFrame()`; `none` models
  Python `None`. -/
  viewFrame : Option ViewFrame
  /-- Answer to `get_int_input`; `none` models cancellation. -/
  intInput : Option Int
  /-- Answer to `get_save_filename_input`, as the raw bytes the host
  returns; `none` models cancellation. -/
  savePathInput : Option (List Nat)
  /-- Whether `img.save(path)` returns `True`. -/
  saveSucceeds : Bool
  deriving DecidableEq

/-- `bytes.decode("ascii")`: succeeds exactly when every byte is below 128,
otherwise raises `UnicodeDecodeError` (modelled as `none`). -/
def decodeAscii (bs : List Nat) : Option String :=
  if bs.all (fun b => b < 128) then
    some (String.mk (bs.map Char.ofNat))
  else none

/-- The trace of src/__init__.py lines 54-66: read the widget rectangle,
allocate the pixmap at the scaled size, set the device pixel ratio, render
the widget into the pixmap, and show the save-filename dialog.  These
events happen on every invocation of `save_widget_image`, before the
cancellation check. -/
def preEvents (env : Env) (w : QWidget) (scale : Int) : List Event :=
  [Event.pixmapCreate (scaled_size w.rect scale),
   Event.setDevicePixelRatio scale,
   Event.render w.rect,
   Event.saveFileDialog "Save Screenshot" "png"
     ("binaryninja-" ++ toString env.now ++ ".png")]

/-- `save_widget_image` from src/__init__.py lines 47-79.  After the
render and the save dialog: a `None` path means the user cancelled and the
function returns; otherwise the path bytes are decoded as ASCII (raising
`UnicodeDecodeError` on a non-ASCII byte, before any save attempt), the
save is attempted once, and the outcome is reported by a console print on
success or a modal error dialog on failure. -/
def save_widget_image (env : Env) (w : QWidget) (scale : Int) :
    List Event × PyResult :=
  let pre := preEvents env w scale
  match env.savePathInput with
  | none => (pre, PyResult.ok)
  | some bs =>
    match decodeAscii bs with
    | none => (pre, PyResult.unicodeDecodeError)
    | some p =>
      if env.saveSucceeds then
        (pre ++ [Event.saveAttempt p,
                 Event.printed ("Screenshot saved to " ++ p ++ " successfully.")],
         PyResult.ok)
      else
        (pre ++ [Event.saveAttempt p,
                 Event.errorDialog "Error" "Failed to save screenshot."],
         PyResult.ok)

/-- The text of the missing-main-window dialog, built without a literal
apostrophe character. -/
def msgNoWindow : String :=
  "Couldn" ++ String.mk [Char.ofNat 39] ++ "t find main window."

/-- `save_active_window_image` from src/__init__.py lines 85-103: if
`QApplication.activeWindow()` is not `None`, delegate to
`save_widget_image`; otherwise show the error dialog. -/
def save_active_window_image (env : Env) (scale : Int) :
    List Event × PyResult :=
  match env.activeWindow with
  | some mw => save_widget_image env mw scale
  | none => ([Event.errorDialog "Error" msgNoWindow], PyResult.ok)

/-- `save_active_view_image` from src/__init__.py lines 106-120: fetch the
view frame and its current widget and delegate to `save_widget_image`,
with no `None` check anywhere.  If `getViewFrame()` returns `None`, the
call `vf.getCurrentWidget()` raises `AttributeError`; if the current
widget is `None`, the call `w.rect()` inside `save_widget_image` raises
`AttributeError`.  Either way no event is emitted first. -/
def save_active_view_image (env : Env) (scale : Int) :
    List Event × PyResult :=
  match env.viewFrame with
  | none => ([], PyResult.attributeError)
  | some vf =>
    match vf.currentWidget with
    | none => ([], PyResult.attributeError)
    | some w => save_widget_image env w scale

/-- `_ui_save_view_image_1x` (src/__init__.py lines 126-129). -/
def _ui_save_view_image_1x (env : Env) : List Event × PyResult :=
  save_active_view_image env 1

/-- `_ui_save_view_image_2x` (src/__init__.py lines 132-135). -/
def _ui_save_view_image_2x (env : Env) : List Event × PyResult :=
  save_active_view_image env 2

/-- `_ui_save_view_image_custom` (src/__init__.py lines 138-144): prompt
for an integer multiplier; proceed with it unless the prompt was
cancelled.  No positivity check is performed. -/
def _ui_save_view_image_custom (env : Env) : List Event × PyResult :=
  match env.intInput with
  | none => ([Event.intPrompt "Resolution multiplier:" "Screenshot Ninja"],
             PyResult.ok)
  | some n =>
    let out := save_active_view_image env n
    (Event.intPrompt "Resolution multiplier:" "Screenshot Ninja" :: out.1,
     out.2)

/-- `_ui_save_window_image_1x` (src/__init__.py lines 147-152). -/
def _ui_save_window_image_1x (env : Env) : List Event × PyResult :=
  save_active_window_image env 1

/-- `_ui_save_window_image_2x` (src/__init__.py lines 155-160). -/
def _ui_save_window_image_2x (env : Env) : List Event × PyResult :=
  save_active_window_image env 2

/-- `_ui_save_window_image_custom` (src/__init__.py lines 163-171). -/
def _ui_save_window_image_custom (env : Env) : List Event × PyResult :=
  match env.intInput with
  | none => ([Event.intPrompt "Resolution multiplier:" "Screenshot Ninja"],
             PyResult.ok)
  | some n =>
    let out := save_active_window_image env n
    (Event.intPrompt "Resolution multiplier:" "Screenshot Ninja" :: out.1,
     out.2)

/-- The six registered commands, by their handler functions. -/
inductive Command where
  | viewImage1x
  | viewImage2x
  | viewImageCustom
  | windowImage1x
  | windowImage2x
  | windowImageCustom
  deriving DecidableEq

/-- Run a registered command against an environment. -/
def run : Command → Env → List Event × PyResult
  | Command.viewImage1x, env => _ui_save_view_image_1x env
  | Command.viewImage2x, env => _ui_save_view_image_2x env
  | Command.viewImageCustom, env => _ui_save_view_image_custom env
  | Command.windowImage1x, env => _ui_save_window_image_1x env
  | Command.windowImage2x, env => _ui_save_window_image_2x env
  | Command.windowImageCustom, env => _ui_save_window_image_custom env

/-- The registration table from src/__init__.py lines 176-210: each
`PluginCommand.register` call, in order, as (label, description, handler). -/
def registeredCommands : List (String × String × Command) :=
  [("Screenshot Ninja \\ Save view image @ 1x...",
    "Save an image of the currently visible linear/graph view at 1x scaling",
    Command.viewImage1x),
   ("Screenshot Ninja \\ Save view image @ 2x...",
    "Save an image of the currently visible linear/graph view at 2x scaling",
    Command.viewImage2x),
   ("Screenshot Ninja \\ Save view image...",
    "Save an image of the currently visible linear/graph view at custom scaling",
    Command.viewImageCustom),
   ("Screenshot Ninja \\ Save window image @ 1x...",
    "Save an image of the main window at 1x scaling",
    Command.windowImage1x),
   ("Screenshot Ninja \\ Save window image @ 2x...",
    "Save an image of the main window at 2x scaling",
    Command.windowImage2x),
   ("Screenshot Ninja \\ Save window image...",
    "Save an image of the main window at custom scaling",
    Command.windowImageCustom)]

/-- Recognize a save attempt event. -/
def Event.isSaveAttempt : Event → Bool
  | Event.saveAttempt _ => true
  | _ => false

/-- Recognize a modal error dialog event. -/
def Event.isErrorDialog : Event → Bool
  | Event.errorDialog _ _ => true
  | _ => false

/-- A baseline environment used to instantiate witnesses: a live window
and view, no user input yet. -/
def w0 : QWidget := ⟨⟨0, 0, 99, 49⟩⟩

/-- Baseline environment for witnesses. -/
def env0 : Env :=
  { now := 1700000000
    activeWindow := some w0
    viewFrame := some ⟨some w0⟩
    intInput := none
    savePathInput := none
    saveSucceeds := true }

/-- Environment in which the view frame cannot be located. -/
def envNoView : Env := { env0 with viewFrame := none }

/-- Environment in which the main window cannot be located. -/
def envNoWindow : Env := { env0 with activeWindow := none }

/-- Environment in which the user chose the path "a.png" (ASCII bytes)
and the disk save succeeds. -/
def envSaveOk : Env := { env0 with savePathInput := some [97, 46, 112, 110, 103] }

/-- Environment in which the user chose the path "b.png" (ASCII bytes)
and the disk save succeeds. -/
def envSaveB : Env := { env0 with savePathInput := some [98, 46, 112, 110, 103] }

/-- Environment in which the user chose a path whose first two bytes are
195 and 169 (a UTF-8 encoded non-ASCII character). -/
def envNonAscii : Env :=
  { env0 with savePathInput := some [195, 169, 46, 112, 110, 103] }

/-- Environment in which the user typed 0 at the multiplier prompt. -/
def envZeroScale : Env := { env0 with intInput := some 0 }

/-- Case analysis on a run of `save_widget_image`: cancellation, decode
failure, successful save, or failed save. -/
theorem save_widget_image_cases (env : Env) (w : QWidget) (scale : Int) :
    (env.savePathInput = none ∧
       save_widget_image env w scale = (preEvents env w scale, PyResult.ok)) ∨
    (∃ bs, env.savePathInput = some bs ∧ decodeAscii bs = none ∧
       save_widget_image env w scale =
         (preEvents env w scale, PyResult.unicodeDecodeError)) ∨
    (∃ bs p, env.savePathInput = some bs ∧ decodeAscii bs = some p ∧
       env.saveSucceeds = true ∧
       save_widget_image env w scale =
         (preEvents env w scale ++
            [Event.saveAttempt p,
             Event.printed ("Screenshot saved to " ++ p ++ " successfully.")],
          PyResult.ok)) ∨
    (∃ bs p, env.savePathInput = some bs ∧ decodeAscii bs = some p ∧
       env.saveSucceeds = false ∧
       save_widget_image env w scale =
         (preEvents env w scale ++
            [Event.saveAttempt p,
             Event.errorDialog "Error" "Failed to save screenshot."],
          PyResult.ok)) := by
  cases h : env.savePathInput with
  | none => exact Or.inl ⟨rfl, by simp [save_widget_image, h]⟩
  | some bs =>
    cases hd : decodeAscii bs with
    | none =>
      exact Or.inr (Or.inl ⟨bs, rfl, hd, by simp [save_widget_image, h, hd]⟩)
    | some p =>
      cases hs : env.saveSucceeds with
      | true =>
        exact Or.inr (Or.inr (Or.inl
          ⟨bs, p, rfl, hd, rfl, by simp [save_widget_image, h, hd, hs]⟩))
      | false =>
        exact Or.inr (Or.inr (Or.inr
          ⟨bs, p, rfl, hd, rfl, by simp [save_widget_image, h, hd, hs]⟩))

/-- The four events preceding the cancellation check contain no save
attempt, no error dialog, and no console print. -/
theorem preEvents_silent (env : Env) (w : QWidget) (scale : Int) (e : Event) :
    e ∈ preEvents env w scale →
    e.isSaveAttempt = false ∧ e.isErrorDialog = false ∧
    ∀ m, e ≠ Event.printed m := by
  intro h
  simp only [preEvents, List.mem_cons, List.not_mem_nil, or_false] at h
  rcases h with h | h | h | h <;> subst h <;>
    simp [Event.isSaveAttempt, Event.isErrorDialog]

/-- No save attempt among the pre-cancellation events. -/
theorem preEvents_countP_saveAttempt (env : Env) (w : QWidget) (scale : Int) :
    (preEvents env w scale).countP Event.isSaveAttempt = 0 := by
  simp [preEvents, List.countP_cons, Event.isSaveAttempt]

/-- No error dialog among the pre-cancellation events. -/
theorem preEvents_countP_errorDialog (env : Env) (w : QWidget) (scale : Int) :
    (preEvents env w scale).countP Event.isErrorDialog = 0 := by
  simp [preEvents, List.countP_cons, Event.isErrorDialog]

/-- Every error dialog emitted by `save_widget_image` is the
save-failure dialog. -/
theorem save_widget_image_errorDialog (env : Env) (w : QWidget) (scale : Int)
    (t x : String) :
    Event.errorDialog t x ∈ (save_widget_image env w scale).1 →
    t = "Error" ∧ x = "Failed to save screenshot." := by
  intro hmem
  have hpre : Event.errorDialog t x ∉ preEvents env w scale := by
    intro hm
    have h2 := (preEvents_silent env w scale _ hm).2.1
    simp [Event.isErrorDialog] at h2
  rcases save_widget_image_cases env w scale with
    ⟨_, heq⟩ | ⟨bs, _, _, heq⟩ | ⟨bs, p, _, _, _, heq⟩ | ⟨bs, p, _, _, _, heq⟩
  · rw [heq] at hmem; exact absurd hmem hpre
  · rw [heq] at hmem; exact absurd hmem hpre
  · rw [heq] at hmem
    rcases List.mem_append.mp hmem with hm | hm
    · exact absurd hm hpre
    · simp at hm
  · rw [heq] at hmem
    rcases List.mem_append.mp hmem with hm | hm
    · exact absurd hm hpre
    · simp only [List.mem_cons, List.not_mem_nil, or_false] at hm
      rcases hm with hm | hm
      · exact absurd hm (by simp)
      · simp only [Event.errorDialog.injEq] at hm
        exact hm

/-- Every error dialog emitted by `save_active_view_image` is the
save-failure dialog. -/
theorem save_active_view_image_errorDialog (env : Env) (scale : Int)
    (t x : String) :
    Event.errorDialog t x ∈ (save_active_view_image env scale).1 →
    t = "Error" ∧ x = "Failed to save screenshot." := by
  intro hmem
  cases h : env.viewFrame with
  | none => simp [save_active_view_image, h] at hmem
  | some vf =>
    cases hw : vf.currentWidget with
    | none => simp [save_active_view_image, h, hw] at hmem
    | some w =>
      simp only [save_active_view_image, h, hw] at hmem
      exact save_widget_image_errorDialog env w scale t x hmem

/-- Every error dialog emitted by `save_active_window_image` is the
missing-window dialog or the save-failure dialog. -/
theorem save_active_window_image_errorDialog (env : Env) (scale : Int)
    (t x : String) :
    Event.errorDialog t x ∈ (save_active_window_image env scale).1 →
    t = "Error" ∧ (x = msgNoWindow ∨ x = "Failed to save screenshot.") := by
  intro hmem
  cases h : env.activeWindow with
  | none =>
    simp only [save_active_window_image, h, List.mem_cons, List.not_mem_nil,
      or_false, Event.errorDialog.injEq] at hmem
    exact ⟨hmem.1, Or.inl hmem.2⟩
  | some mw =>
    simp only [save_active_window_image, h] at hmem
    have h2 := save_widget_image_errorDialog env mw scale t x hmem
    exact ⟨h2.1, Or.inr h2.2⟩

/-- C1: for every rectangle and integer scale factor, `scaled_size`
returns exactly the size obtained by multiplying the rectangle width and
height by the factor, and the pixel buffer allocated by
`save_widget_image` has exactly that size. -/
theorem scaled_size_mul (r : QRect) (k : Int) :
    scaled_size r k = ⟨r.width * k, r.height * k⟩ ∧
    ∀ (env : Env) (w : QWidget),
      Event.pixmapCreate (scaled_size w.rect k) ∈
        (save_widget_image env w k).1 := by
  constructor
  · simp [scaled_size, QRect.setWidth, QRect.setHeight, QRect.size,
      QRect.width, QRect.height]
    constructor <;> ring
  · intro env w
    unfold save_widget_image
    cases h : env.savePathInput with
    | none => simp [preEvents]
    | some bs =>
      cases hd : decodeAscii bs with
      | none => simp [preEvents, hd]
      | some p =>
        cases hs : env.saveSucceeds <;> simp [preEvents, hd, hs]

/-- C2 counterexample: with the view frame missing, the view-image command
shows no error dialog at all; it emits no event and raises an uncaught
AttributeError, contradicting the claim that every command shows an error
dialog when the targeted widget cannot be located. -/
theorem view_command_missing_widget_no_dialog :
    (run Command.viewImage1x envNoView).1 = [] ∧
    (run Command.viewImage1x envNoView).2 = PyResult.attributeError :=
  ⟨rfl, rfl⟩

/-- C2 amended: the main-window commands show the error dialog and abort
without rendering or saving when the main window cannot be located, while
the active-view commands perform no such check: a missing view frame or a
missing current widget leads to an uncaught AttributeError with no dialog,
no render and no save. -/
theorem window_commands_check_widget_view_commands_do_not
    (env : Env) (scale : Int) :
    (env.activeWindow = none →
       save_active_window_image env scale =
         ([Event.errorDialog "Error" msgNoWindow], PyResult.ok)) ∧
    (env.viewFrame = none →
       save_active_view_image env scale = ([], PyResult.attributeError)) ∧
    (∀ vf, env.viewFrame = some vf → vf.currentWidget = none →
       save_active_view_image env scale = ([], PyResult.attributeError)) := by
  refine ⟨?_, ?_, ?_⟩
  · intro h; simp [save_active_window_image, h]
  · intro h; simp [save_active_view_image, h]
  · intro vf h hw; simp [save_active_view_image, h, hw]

/-- C2 witness at concrete environments. -/
theorem window_commands_check_widget_view_commands_do_not_witness :
    save_active_window_image envNoWindow 1 =
      ([Event.errorDialog "Error" msgNoWindow], PyResult.ok) ∧
    save_active_view_image envNoView 1 = ([], PyResult.attributeError) :=
  ⟨(window_commands_check_widget_view_commands_do_not envNoWindow 1).1 rfl,
   (window_commands_check_widget_view_commands_do_not envNoView 1).2.1 rfl⟩

/-- C3: every modal error dialog any of the six commands can ever show is
one of exactly two: the missing-main-window dialog and the failed-save
dialog; and each of those two failure conditions does produce its
dialog. -/
theorem error_dialogs_exactly_two :
    (∀ (c : Command) (env : Env) (t x : String),
       Event.errorDialog t x ∈ (run c env).1 →
       t = "Error" ∧ (x = msgNoWindow ∨ x = "Failed to save screenshot.")) ∧
    (∀ (env : Env) (scale : Int), env.activeWindow = none →
       Event.errorDialog "Error" msgNoWindow ∈
         (save_active_window_image env scale).1) ∧
    (∀ (env : Env) (w : QWidget) (scale : Int) (bs : List Nat) (p : String),
       env.savePathInput = some bs → decodeAscii bs = some p →
       env.saveSucceeds = false →
       Event.errorDialog "Error" "Failed to save screenshot." ∈
         (save_widget_image env w scale).1) := by
  refine ⟨?_, ?_, ?_⟩
  · intro c env t x hmem
    cases c
    · have h2 := save_active_view_image_errorDialog env 1 t x hmem
      exact ⟨h2.1, Or.inr h2.2⟩
    · have h2 := save_active_view_image_errorDialog env 2 t x hmem
      exact ⟨h2.1, Or.inr h2.2⟩
    · simp only [run, _ui_save_view_image_custom] at hmem
      cases h : env.intInput with
      | none => simp [h] at hmem
      | some n =>
        rw [h] at hmem
        simp only [List.mem_cons] at hmem
        rcases hmem with hmem | hmem
        · simp at hmem
        · have h2 := save_active_view_image_errorDialog env n t x hmem
          exact ⟨h2.1, Or.inr h2.2⟩
    · exact save_active_window_image_errorDialog env 1 t x hmem
    · exact save_active_window_image_errorDialog env 2 t x hmem
    · simp only [run, _ui_save_window_image_custom] at hmem
      cases h : env.intInput with
      | none => simp [h] at hmem
      | some n =>
        rw [h] at hmem
        simp only [List.mem_cons] at hmem
        rcases hmem with hmem | hmem
        · simp at hmem
        · exact save_active_window_image_errorDialog env n t x hmem
  · intro env scale h
    simp [save_active_window_image, h]
  · intro env w scale bs p hbs hp hs
    simp [save_widget_image, hbs, hp, hs]

/-- C3 witness at a concrete environment. -/
theorem error_dialogs_exactly_two_witness :
    Event.errorDialog "Error" msgNoWindow ∈
      (save_active_window_image envNoWindow 1).1 :=
  error_dialogs_exactly_two.2.1 envNoWindow 1 rfl

/-- C4: cancelling the save-filename dialog makes `save_widget_image`
return with only the pre-dialog events, which contain no save attempt, no
console message and no dialog of any kind besides the prompts themselves;
cancelling the multiplier prompt makes both custom commands return having
shown only that prompt. -/
theorem cancellation_silent :
    (∀ (env : Env) (w : QWidget) (scale : Int), env.savePathInput = none →
       save_widget_image env w scale = (preEvents env w scale, PyResult.ok)) ∧
    (∀ (env : Env), env.intInput = none →
       _ui_save_view_image_custom env =
         ([Event.intPrompt "Resolution multiplier:" "Screenshot Ninja"],
          PyResult.ok) ∧
       _ui_save_window_image_custom env =
         ([Event.intPrompt "Resolution multiplier:" "Screenshot Ninja"],
          PyResult.ok)) ∧
    (∀ (env : Env) (w : QWidget) (scale : Int) (e : Event),
       e ∈ preEvents env w scale →
       e.isSaveAttempt = false ∧ e.isErrorDialog = false ∧
       ∀ m, e ≠ Event.printed m) := by
  refine ⟨?_, ?_, preEvents_silent⟩
  · intro env w scale h
    simp [save_widget_image, h]
  · intro env h
    constructor
    · simp [_ui_save_view_image_custom, h]
    · simp [_ui_save_window_image_custom, h]

/-- C4 witness at a concrete environment. -/
theorem cancellation_silent_witness :
    save_widget_image env0 w0 1 = (preEvents env0 w0 1, PyResult.ok) ∧
    _ui_save_view_image_custom env0 =
      ([Event.intPrompt "Resolution multiplier:" "Screenshot Ninja"],
       PyResult.ok) :=
  ⟨cancellation_silent.1 env0 w0 1 rfl, (cancellation_silent.2.1 env0 rfl).1⟩

/-- C5 counterexample: at a concrete non-cancelled invocation whose save
succeeds, exactly one save attempt is made but no message box of any kind
is shown; the successful outcome is reported only by a console print, so
the user is not informed of the outcome via a pass/fail message box. -/
theorem save_success_reports_via_print_not_message_box :
    (save_widget_image envSaveOk w0 1).1.countP Event.isSaveAttempt = 1 ∧
    (save_widget_image envSaveOk w0 1).1.countP Event.isErrorDialog = 0 ∧
    Event.printed "Screenshot saved to a.png successfully." ∈
      (save_widget_image envSaveOk w0 1).1 := by
  refine ⟨?_, ?_, ?_⟩ <;> decide

/-- C5 amended: for every non-cancelled invocation whose chosen path
decodes as ASCII, exactly one save attempt is made (no retries); a failed
save is reported via the modal error dialog, while a successful save is
reported via a console message and shows no dialog. -/
theorem single_save_attempt_and_outcome_report
    (env : Env) (w : QWidget) (scale : Int) (bs : List Nat) (p : String)
    (hbs : env.savePathInput = some bs) (hp : decodeAscii bs = some p) :
    ((save_widget_image env w scale).1.countP Event.isSaveAttempt = 1) ∧
    (env.saveSucceeds = true →
       (save_widget_image env w scale).1.countP Event.isErrorDialog = 0 ∧
       Event.printed ("Screenshot saved to " ++ p ++ " successfully.") ∈
         (save_widget_image env w scale).1) ∧
    (env.saveSucceeds = false →
       Event.errorDialog "Error" "Failed to save screenshot." ∈
         (save_widget_image env w scale).1) := by
  cases hs : env.saveSucceeds
  · refine ⟨?_, ?_, ?_⟩
    · simp [save_widget_image, hbs, hp, hs, List.countP_append,
        preEvents_countP_saveAttempt, List.countP_cons, Event.isSaveAttempt]
    · intro h; simp_all
    · intro _; simp [save_widget_image, hbs, hp, hs]
  · refine ⟨?_, ?_, ?_⟩
    · simp [save_widget_image, hbs, hp, hs, List.countP_append,
        preEvents_countP_saveAttempt, List.countP_cons, Event.isSaveAttempt]
    · intro _
      constructor
      · simp [save_widget_image, hbs, hp, hs, List.countP_append,
          preEvents_countP_errorDialog, List.countP_cons, Event.isErrorDialog]
      · simp [save_widget_image, hbs, hp, hs]
    · intro h; simp_all

/-- C5 witness at a concrete environment. -/
theorem single_save_attempt_and_outcome_report_witness :
    (save_widget_image envSaveOk w0 1).1.countP Event.isSaveAttempt = 1 :=
  (single_save_attempt_and_outcome_report envSaveOk w0 1
    [97, 46, 112, 110, 103] "a.png" rfl (by decide)).1

/-- C6 counterexample: with the user answering 0 at the multiplier prompt,
the custom view command proceeds to allocate, scale and render at factor
0 instead of rejecting the non-positive multiplier. -/
theorem custom_command_proceeds_with_zero_scale :
    Event.setDevicePixelRatio 0 ∈ (run Command.viewImageCustom envZeroScale).1 ∧
    Event.render w0.rect ∈ (run Command.viewImageCustom envZeroScale).1 ∧
    (run Command.viewImageCustom envZeroScale).2 = PyResult.ok := by
  refine ⟨?_, ?_, ?_⟩ <;> decide

/-- C6 amended: the fixed commands invoke the screenshot operation at the
positive scales 1 and 2, but the custom commands forward whatever integer
the user enters, with no positivity check: any non-cancelled answer,
including zero and negative values, is used as the scale factor. -/
theorem fixed_scales_positive_custom_unvalidated :
    (∀ env : Env,
       _ui_save_view_image_1x env = save_active_view_image env 1 ∧
       _ui_save_view_image_2x env = save_active_view_image env 2 ∧
       _ui_save_window_image_1x env = save_active_window_image env 1 ∧
       _ui_save_window_image_2x env = save_active_window_image env 2) ∧
    (∀ (env : Env) (n : Int), env.intInput = some n →
       _ui_save_view_image_custom env =
         (Event.intPrompt "Resolution multiplier:" "Screenshot Ninja" ::
            (save_active_view_image env n).1,
          (save_active_view_image env n).2) ∧
       _ui_save_window_image_custom env =
         (Event.intPrompt "Resolution multiplier:" "Screenshot Ninja" ::
            (save_active_window_image env n).1,
          (save_active_window_image env n).2)) := by
  refine ⟨fun env => ⟨rfl, rfl, rfl, rfl⟩, ?_⟩
  intro env n h
  constructor
  · simp [_ui_save_view_image_custom, h]
  · simp [_ui_save_window_image_custom, h]

/-- C6 witness at a concrete environment. -/
theorem fixed_scales_positive_custom_unvalidated_witness :
    _ui_save_view_image_custom envZeroScale =
      (Event.intPrompt "Resolution multiplier:" "Screenshot Ninja" ::
         (save_active_view_image envZeroScale 0).1,
       (save_active_view_image envZeroScale 0).2) :=
  ((fixed_scales_positive_custom_unvalidated.2 envZeroScale 0) rfl).1

/-- C7: every invocation shows the save dialog with the png extension
filter and a default filename ending in ".png", and every save attempt is
made exactly at the ASCII decoding of the path the user chose in that
dialog. -/
theorem png_dialog_and_user_path (env : Env) (w : QWidget) (scale : Int) :
    Event.saveFileDialog "Save Screenshot" "png"
        ("binaryninja-" ++ toString env.now ++ ".png") ∈
      (save_widget_image env w scale).1 ∧
    ∀ p, Event.saveAttempt p ∈ (save_widget_image env w scale).1 →
      ∃ bs, env.savePathInput = some bs ∧ decodeAscii bs = some p := by
  have hdlg : Event.saveFileDialog "Save Screenshot" "png"
      ("binaryninja-" ++ toString env.now ++ ".png") ∈ preEvents env w scale := by
    simp [preEvents]
  have hnoatt : ∀ p, Event.saveAttempt p ∉ preEvents env w scale := by
    intro p hm
    have h2 := (preEvents_silent env w scale _ hm).1
    simp [Event.isSaveAttempt] at h2
  rcases save_widget_image_cases env w scale with
    ⟨_, heq⟩ | ⟨bs, hbs, _, heq⟩ | ⟨bs, p0, hbs, hp0, _, heq⟩ |
    ⟨bs, p0, hbs, hp0, _, heq⟩ <;> rw [heq] <;> constructor
  · exact hdlg
  · intro p hm; exact absurd hm (hnoatt p)
  · exact hdlg
  · intro p hm; exact absurd hm (hnoatt p)
  · exact List.mem_append_left _ hdlg
  · intro p hm
    rcases List.mem_append.mp hm with hm | hm
    · exact absurd hm (hnoatt p)
    · simp only [List.mem_cons, List.not_mem_nil, or_false,
        Event.saveAttempt.injEq] at hm
      rcases hm with hm | hm
      · exact ⟨bs, hbs, hm ▸ hp0⟩
      · exact absurd hm (by simp)
  · exact List.mem_append_left _ hdlg
  · intro p hm
    rcases List.mem_append.mp hm with hm | hm
    · exact absurd hm (hnoatt p)
    · simp only [List.mem_cons, List.not_mem_nil, or_false,
        Event.saveAttempt.injEq] at hm
      rcases hm with hm | hm
      · exact ⟨bs, hbs, hm ▸ hp0⟩
      · exact absurd hm (by simp)

/-- C7 witness at a concrete environment. -/
theorem png_dialog_and_user_path_witness :
    ∃ bs, envSaveB.savePathInput = some bs ∧ decodeAscii bs = some "b.png" :=
  (png_dialog_and_user_path envSaveB w0 1).2 "b.png" (by decide)

/-- C8: at load time exactly six commands are registered, with the six
fixed labels and descriptions from the source, no duplicate labels, and
each of the six handlers (view image at 1x, 2x and custom scaling; window
image at 1x, 2x and custom scaling) appearing exactly once, in that
order. -/
theorem six_commands_registered :
    registeredCommands.length = 6 ∧
    registeredCommands.map (fun e => e.2.2) =
      [Command.viewImage1x, Command.viewImage2x, Command.viewImageCustom,
       Command.windowImage1x, Command.windowImage2x,
       Command.windowImageCustom] ∧
    (registeredCommands.map (fun e => e.1)).Nodup ∧
    registeredCommands.map (fun e => e.1) =
      ["Screenshot Ninja \\ Save view image @ 1x...",
       "Screenshot Ninja \\ Save view image @ 2x...",
       "Screenshot Ninja \\ Save view image...",
       "Screenshot Ninja \\ Save window image @ 1x...",
       "Screenshot Ninja \\ Save window image @ 2x...",
       "Screenshot Ninja \\ Save window image..."] ∧
    registeredCommands.map (fun e => e.2.1) =
      ["Save an image of the currently visible linear/graph view at 1x scaling",
       "Save an image of the currently visible linear/graph view at 2x scaling",
       "Save an image of the currently visible linear/graph view at custom scaling",
       "Save an image of the main window at 1x scaling",
       "Save an image of the main window at 2x scaling",
       "Save an image of the main window at custom scaling"] := by
  refine ⟨rfl, rfl, by decide, rfl, rfl⟩

/-- C9: the chosen save path is always decoded as ASCII before any save:
a path with any byte outside the ASCII range makes `save_widget_image`
raise an uncaught UnicodeDecodeError, with no save attempt and no error
dialog; and every save attempt that does happen uses exactly the ASCII
decoding of the chosen path. -/
theorem save_path_decoded_as_ascii :
    (∀ (env : Env) (w : QWidget) (scale : Int) (bs : List Nat),
       env.savePathInput = some bs →
       bs.all (fun b => b < 128) = false →
       (save_widget_image env w scale).2 = PyResult.unicodeDecodeError ∧
       (save_widget_image env w scale).1.countP Event.isSaveAttempt = 0 ∧
       (save_widget_image env w scale).1.countP Event.isErrorDialog = 0) ∧
    (∀ (env : Env) (w : QWidget) (scale : Int) (p : String),
       Event.saveAttempt p ∈ (save_widget_image env w scale).1 →
       ∃ bs, env.savePathInput = some bs ∧ decodeAscii bs = some p) := by
  constructor
  · intro env w scale bs hbs hna
    have hd : decodeAscii bs = none := by simp [decodeAscii, hna]
    refine ⟨?_, ?_, ?_⟩ <;>
      simp [save_widget_image, hbs, hd, preEvents_countP_saveAttempt,
        preEvents_countP_errorDialog]
  · intro env w scale p hm
    have hnoatt : Event.saveAttempt p ∉ preEvents env w scale := by
      intro h2
      have h3 := (preEvents_silent env w scale _ h2).1
      simp [Event.isSaveAttempt] at h3
    rcases save_widget_image_cases env w scale with
      ⟨_, heq⟩ | ⟨bs, hbs, _, heq⟩ | ⟨bs, p0, hbs, hp0, _, heq⟩ |
      ⟨bs, p0, hbs, hp0, _, heq⟩ <;> rw [heq] at hm
    · exact absurd hm hnoatt
    · exact absurd hm hnoatt
    · rcases List.mem_append.mp hm with hm | hm
      · exact absurd hm hnoatt
      · simp only [List.mem_cons, List.not_mem_nil, or_false,
          Event.saveAttempt.injEq] at hm
        rcases hm with hm | hm
        · exact ⟨bs, hbs, hm ▸ hp0⟩
        · exact absurd hm (by simp)
    · rcases List.mem_append.mp hm with hm | hm
      · exact absurd hm hnoatt
      · simp only [List.mem_cons, List.not_mem_nil, or_false,
          Event.saveAttempt.injEq] at hm
        rcases hm with hm | hm
        · exact ⟨bs, hbs, hm ▸ hp0⟩
        · exact absurd hm (by simp)

/-- C9 witness: a concrete path whose first byte is 195 raises the decode
error with no save attempt and no dialog. -/
theorem save_path_decoded_as_ascii_witness :
    (save_widget_image envNonAscii w0 1).2 = PyResult.unicodeDecodeError :=
  (save_path_decoded_as_ascii.1 envNonAscii w0 1
    [195, 169, 46, 112, 110, 103] rfl (by decide)).1

/-- C10: on every invocation the trace of `save_widget_image` starts with
the pixmap allocation, the device-pixel-ratio setting, the render of the
widget, and only then the save-filename dialog; in particular the render
precedes the dialog, and it still happens when the user cancels the
dialog. -/
theorem render_precedes_save_dialog (env : Env) (w : QWidget) (scale : Int) :
    (∃ rest, (save_widget_image env w scale).1 =
       [Event.pixmapCreate (scaled_size w.rect scale),
        Event.setDevicePixelRatio scale,
        Event.render w.rect,
        Event.saveFileDialog "Save Screenshot" "png"
          ("binaryninja-" ++ toString env.now ++ ".png")] ++ rest) ∧
    Event.render w.rect ∈
      (save_widget_image { env with savePathInput := none } w scale).1 := by
  constructor
  · rcases save_widget_image_cases env w scale with
      ⟨_, heq⟩ | ⟨bs, _, _, heq⟩ | ⟨bs, p, _, _, _, heq⟩ |
      ⟨bs, p, _, _, _, heq⟩ <;> rw [heq]
    · exact ⟨[], by simp [preEvents]⟩
    · exact ⟨[], by simp [preEvents]⟩
    · exact ⟨[Event.saveAttempt p,
        Event.printed ("Screenshot saved to " ++ p ++ " successfully.")],
        by simp [preEvents]⟩
    · exact ⟨[Event.saveAttempt p,
        Event.errorDialog "Error" "Failed to save screenshot."],
        by simp [preEvents]⟩
  · simp [save_widget_image, preEvents]
